import Mathlib

/-!
Verification development for the serverless-adapted Express backend
(single source file src/api/[...all].ts): the Vercel serverless adapter,
the database connector with its fallback invariant, the startup mode
selector, the rate-limiter configuration and the health endpoint.
-/

set_option autoImplicit false

namespace AtomBackend

/-!
## A small model of the JavaScript values the adapter inspects

The adapter (source lines 10-32) inspects the dynamically imported value
with truthiness tests, typeof tests and one property access (the member
named handle). Only those observations matter, so a value is modelled by
its constructor kind together with its handle property where it can have
one. A callable value (vFun) may itself carry a handle property, since a
JavaScript function is an object. An absent property reads as undefined
in JavaScript, so a value without a handle member stores vUndefined
there.
-/

inductive JSValue where
  | vNull
  | vUndefined
  | vStr (s : String)
  | vFun (handleProp : JSValue)
  | vObj (handleProp : JSValue)
deriving DecidableEq, Repr

/-- JavaScript truthiness for the modelled values: null and undefined are
falsy, a string is truthy when non-empty, functions and objects are truthy. -/
def truthy : JSValue → Bool
  | .vNull => false
  | .vUndefined => false
  | .vStr s => !(s == "")
  | .vFun _ => true
  | .vObj _ => true

/-- The test typeof v === function. -/
def typeofIsFunction : JSValue → Bool
  | .vFun _ => true
  | _ => false

/-- Property access v.handle. On a function or plain object it yields the
stored property; on a string it yields undefined (strings have no handle
member). In JavaScript the access would throw on null or undefined, but
every access in the source is guarded by a short-circuiting truthiness
test, so that branch is unreachable and is mapped to undefined here. -/
def getHandle : JSValue → JSValue
  | .vFun h => h
  | .vObj h => h
  | _ => .vUndefined

/-- The validation test of source line 14:
not app, or (typeof app is not function and typeof app.handle is not
function). The Boolean or short-circuits exactly as in the source, so
getHandle is only reached on truthy values. -/
def isInvalidApp (app : JSValue) : Bool :=
  !truthy app || (!typeofIsFunction app && !typeofIsFunction (getHandle app))

/-!
## The serverless adapter (source lines 3-40)
-/

/-- A JSON error body with the two fields the adapter writes. -/
structure ErrorBody where
  error : String
  message : String
deriving DecidableEq, Repr

/-- The configuration-error body of source lines 16-19. -/
def configurationErrorBody : ErrorBody :=
  { error := "Server configuration error"
    message := "Express app not properly exported" }

/-- The generic catch-block body of source lines 35-38. -/
def internalErrorBody : ErrorBody :=
  { error := "Internal server error"
    message := "Serverless function failed to process request" }

/-- The dynamically imported module (source line 10): the value of its
default export (vUndefined when the module has none) and the handle
export of the module namespace object, which itself is a non-callable
object (vUndefined when the module has no handle export). -/
structure ModuleImport where
  defaultExport : JSValue
  nsHandle : JSValue
deriving DecidableEq, Repr

/-- The module namespace object, as a JSValue: always a non-callable
truthy object whose handle member is the handle export, if any. -/
def moduleNamespace (m : ModuleImport) : JSValue :=
  .vObj m.nsHandle

/-- Source line 11: const app = moduleImport.default or-else moduleImport. -/
def resolvedApp (m : ModuleImport) : JSValue :=
  if truthy m.defaultExport then m.defaultExport else moduleNamespace m

/-- Result of the dynamic import on source line 10: either the import
throws, or it yields a module. -/
inductive LoadResult where
  | throws
  | ok (m : ModuleImport)
deriving DecidableEq, Repr

/-- Terminal events a response stream can signal (source lines 29-31). -/
inductive RespEvent where
  | finish
  | close
  | error
deriving DecidableEq, Repr

/-- Observable behaviour of one application invocation: whether the call
app(req, res) respectively app.handle(req, res) throws synchronously
inside the promise executor, and otherwise the first terminal event the
response signals after the listeners of lines 29-31 are attached (none
when no terminal event ever fires). Node emits these stream events
asynchronously, so none can fire before the listeners are attached. -/
structure AppBehavior where
  throwsSync : Bool
  firstEvent : Option RespEvent
deriving DecidableEq, Repr

/-- Which invocation form line 24 selects. -/
inductive InvokeForm where
  | direct
  | viaHandle
deriving DecidableEq, Repr

/-- How the promise returned by the async handler settles. -/
inductive Settle where
  | resolved
  | rejected
  | pending
deriving DecidableEq, Repr

/-- The observable outcome of one handler invocation: the HTTP status and
JSON body the adapter itself wrote (none when it delegated the response
to the application), which invocation form ran (none when the
application was never invoked), and how the returned promise settles. -/
structure HandlerOutcome where
  adapterStatus : Option Nat
  adapterBody : Option ErrorBody
  invoked : Option InvokeForm
  settle : Settle
deriving DecidableEq, Repr

/-- Source lines 14-32, after the app value is resolved. Validation
failure responds 500 with the configuration body and returns normally,
never invoking the application. Otherwise line 24 picks the invocation
form and lines 23-32 build the returned promise. A synchronous throw
from the invocation inside the promise executor is converted by the
Promise constructor into a rejection of that promise; since the async
function returns the promise without awaiting it, that rejection (and a
rejection from the error event) bypasses the catch of line 33 and
reaches the host. -/
def handlerWithApp (app : JSValue) (b : AppBehavior) : HandlerOutcome :=
  if isInvalidApp app then
    { adapterStatus := some 500
      adapterBody := some configurationErrorBody
      invoked := none
      settle := .resolved }
  else
    let via : InvokeForm := if typeofIsFunction app then .direct else .viaHandle
    if b.throwsSync then
      { adapterStatus := none, adapterBody := none, invoked := some via, settle := .rejected }
    else
      match b.firstEvent with
      | some .finish =>
          { adapterStatus := none, adapterBody := none, invoked := some via, settle := .resolved }
      | some .close =>
          { adapterStatus := none, adapterBody := none, invoked := some via, settle := .resolved }
      | some .error =>
          { adapterStatus := none, adapterBody := none, invoked := some via, settle := .rejected }
      | none =>
          { adapterStatus := none, adapterBody := none, invoked := some via, settle := .pending }

/-- The exported async handler (source lines 3-40). A throw of the
dynamic import is caught by the catch of line 33 and answered with the
generic 500 body, the async function then returning normally. -/
def handler (load : LoadResult) (b : AppBehavior) : HandlerOutcome :=
  match load with
  | .throws =>
      { adapterStatus := some 500
        adapterBody := some internalErrorBody
        invoked := none
        settle := .resolved }
  | .ok m => handlerWithApp (resolvedApp m) b

/-!
## Database connector (source lines 58-93) and startup selector (167-175)

The two module-level variables prisma and dbConnected are the
connectivity state. The function initializeDatabase mutates them with
awaits in between; since the event loop can run other requests at each
await, the model records the state visible at every suspension point in
a trace, together with the final state and whether the disconnect call
of the catch block ran.
-/

/-- An opaque PrismaClient instance. -/
inductive PrismaClient where
  | client
deriving DecidableEq, Repr

/-- The module-level connectivity state: let prisma and let dbConnected
of source lines 58-59. -/
structure DBState where
  prisma : Option PrismaClient
  dbConnected : Bool
deriving DecidableEq, Repr

/-- The environment and failure behaviour a run of initializeDatabase
can encounter: the DATABASE_URL variable, and whether the client
constructor, the connect call, the schema-validation count, or the
disconnect call of the catch block throws. -/
structure DBEnv where
  databaseUrl : Option String
  ctorFails : Bool
  connectFails : Bool
  countFails : Bool
  disconnectFails : Bool
deriving DecidableEq, Repr

/-- Truthiness of an environment variable value: defined and non-empty. -/
def envTruthy (v : Option String) : Bool :=
  !(v.getD "" == "")

/-- One run of initializeDatabase: the connectivity states visible at
its suspension points (in order), the final state, and whether the
disconnect of the catch block was called. -/
structure InitRun where
  trace : List DBState
  final : DBState
  disconnectCalled : Bool
deriving DecidableEq, Repr

/-- The catch block of source lines 78-92, entered with the current
state s: set dbConnected to false, then when prisma is non-null await
its disconnect (a suspension point; a throw there is caught by the inner
catch of lines 87-89 and only logged, never propagated), finally set
prisma to null. -/
def initCatch (s : DBState) : InitRun :=
  match s.prisma with
  | some _ =>
      { trace := [{ s with dbConnected := false }]
        final := { prisma := none, dbConnected := false }
        disconnectCalled := true }
  | none =>
      { trace := []
        final := { prisma := none, dbConnected := false }
        disconnectCalled := false }

/-- Source lines 62-93, started in state s0. When DATABASE_URL is
truthy: assign prisma a fresh client (a constructor throw reaches the
catch before the assignment), await connect, await the schema-validation
count (both suspension points observing prisma set while dbConnected is
still false), then set dbConnected to true; any throw enters the catch
block. When DATABASE_URL is not truthy: set dbConnected to false and
prisma to null. The disconnectFails flag never influences the result,
because the inner catch absorbs it. -/
def initializeDatabase (env : DBEnv) (s0 : DBState) : InitRun :=
  if envTruthy env.databaseUrl then
    if env.ctorFails then
      initCatch s0
    else
      let s1 : DBState := { prisma := some PrismaClient.client, dbConnected := s0.dbConnected }
      if env.connectFails then
        let c := initCatch s1
        { c with trace := s1 :: c.trace }
      else if env.countFails then
        let c := initCatch s1
        { c with trace := s1 :: s1 :: c.trace }
      else
        { trace := [s1, s1]
          final := { prisma := some PrismaClient.client, dbConnected := true }
          disconnectCalled := false }
  else
    { trace := []
      final := { prisma := none, dbConnected := false }
      disconnectCalled := false }

/-- The claimed connectivity invariant: the handle is non-null only if
the connected flag is true. -/
def dbInvariant (s : DBState) : Bool :=
  s.prisma.isNone || s.dbConnected

/-- Result of the startup branch of source lines 167-175. -/
structure StartupRun where
  state : DBState
  initInvoked : Bool
deriving DecidableEq, Repr

/-- Source lines 167-175: when process.env.VERCEL is truthy, force the
state to (null, false) without invoking initializeDatabase; otherwise
invoke initializeDatabase on the initial state (null, false). The
recorded state is the settled one (in local mode the call is not
awaited, so requests arriving earlier see trace states of the run). -/
def startupInit (vercel : Option String) (env : DBEnv) : StartupRun :=
  if envTruthy vercel then
    { state := { prisma := none, dbConnected := false }, initInvoked := false }
  else
    { state := (initializeDatabase env { prisma := none, dbConnected := false }).final
      initInvoked := true }

/-- Per-request context attached by the middleware of source lines
134-138: req.prisma and req.dbConnected. -/
structure RequestContext where
  prisma : Option PrismaClient
  dbConnected : Bool
deriving DecidableEq, Repr

/-- The context-injection middleware (source lines 134-138): copies the
current module-level state onto the request. -/
def contextInjection (s : DBState) : RequestContext :=
  { prisma := s.prisma, dbConnected := s.dbConnected }

/-!
## Rate limiter configuration (source lines 98-114)
-/

/-- The message object of source lines 101-104, sent as the JSON body of
a rejected request. -/
structure RateLimitMessage where
  error : String
  retryAfter : Nat
deriving DecidableEq, Repr

/-- The options object passed to rateLimit on source lines 98-114. The
skip field is the predicate of lines 110-113 on the request path. -/
structure RateLimitConfig where
  windowMs : Nat
  max : Nat
  message : RateLimitMessage
  standardHeaders : Bool
  legacyHeaders : Bool
  skipSuccessfulRequests : Bool
  skip : String → Bool

/-- The limiter of source lines 98-114. -/
def limiter : RateLimitConfig :=
  { windowMs := 1 * 60 * 1000
    max := 200
    message := { error := "Too many requests, please try again later.", retryAfter := 60 }
    standardHeaders := true
    legacyHeaders := false
    skipSuccessfulRequests := true
    skip := fun path => path == "/api/health" }

/-- Outcome of passing one request through the rate limiter. -/
structure LimiterDecision where
  allowed : Bool
  newCount : Nat
  rejectBody : Option RateLimitMessage
deriving DecidableEq, Repr

/-- Modelled from the spec: the fixed-window counting discipline of the
external rate-limiting middleware (express-rate-limit), whose code is
not part of this repository. For one identity within one window holding
count already-counted hits: a request whose path the configured skip
predicate accepts is neither counted nor limited; otherwise the hit is
counted and, when the count would exceed the configured ceiling, the
request is rejected with the configured message body; when
skipSuccessfulRequests is set, a counted hit whose response status is
2xx is uncounted again. -/
def limiterStep (cfg : RateLimitConfig) (count : Nat) (path : String) (respStatus : Nat) :
    LimiterDecision :=
  if cfg.skip path then
    { allowed := true, newCount := count, rejectBody := none }
  else if cfg.max < count + 1 then
    { allowed := false, newCount := count + 1, rejectBody := some cfg.message }
  else if cfg.skipSuccessfulRequests && (200 ≤ respStatus && respStatus < 300) then
    { allowed := true, newCount := count, rejectBody := none }
  else
    { allowed := true, newCount := count + 1, rejectBody := none }

/-!
## Health endpoint (source lines 148-150)
-/

/-- The JSON body the health route writes. The timestamp is modelled as
the clock reading in milliseconds since the epoch; the source renders it
with toISOString, an order-preserving formatting. -/
structure HealthBody where
  status : String
  timestamp : Nat
deriving DecidableEq, Repr

/-- The full health response: HTTP status and body. -/
structure HealthResult where
  httpStatus : Nat
  body : HealthBody
deriving DecidableEq, Repr

/-- The health route handler of source lines 148-150. It writes status
OK with the current time and the default 200 status. The request context
is a parameter only to show the handler is independent of it: the source
handler reads nothing from the request, in particular not the database
handle. -/
def healthHandler (_ctx : RequestContext) (now : Nat) : HealthResult :=
  { httpStatus := 200, body := { status := "OK", timestamp := now } }

/-!
## Helper lemmas about the adapter
-/

/-- On a value failing validation, the adapter answers 500 with the
configuration body, never invokes, and resolves. -/
theorem handlerWithApp_invalid (app : JSValue) (b : AppBehavior)
    (hv : isInvalidApp app = true) :
    handlerWithApp app b =
      { adapterStatus := some 500, adapterBody := some configurationErrorBody,
        invoked := none, settle := Settle.resolved } := by
  simp [handlerWithApp, hv]

/-- On a value passing validation, the adapter writes no response of its
own, invokes in the form line 24 selects, and the promise settles by the
invocation behaviour. -/
theorem handlerWithApp_valid (app : JSValue) (b : AppBehavior)
    (hv : isInvalidApp app = false) :
    handlerWithApp app b =
      { adapterStatus := none, adapterBody := none,
        invoked := some (if typeofIsFunction app then InvokeForm.direct else InvokeForm.viaHandle),
        settle :=
          if b.throwsSync then Settle.rejected
          else
            match b.firstEvent with
            | some RespEvent.finish => Settle.resolved
            | some RespEvent.close => Settle.resolved
            | some RespEvent.error => Settle.rejected
            | none => Settle.pending } := by
  unfold handlerWithApp
  cases hb : b.throwsSync <;>
      simp only [hv, hb, Bool.false_eq_true, if_false, if_true]
  rcases hev : b.firstEvent with _ | ev
  · rfl
  · cases ev <;> rfl

/-- A validation-passing value is truthy and offers a callable interface
in at least one of the two recognized forms. -/
theorem valid_cases (app : JSValue) (hv : isInvalidApp app = false) :
    truthy app = true ∧
      (typeofIsFunction app = true ∨ typeofIsFunction (getHandle app) = true) := by
  have h := hv
  unfold isInvalidApp at h
  rcases ht : truthy app with _ | _
  · rw [ht] at h
    simp at h
  · rw [ht] at h
    simp at h
    constructor
    · rfl
    · rcases hf : typeofIsFunction app with _ | _
      · rw [hf] at h
        simp at h
        exact Or.inr h
      · exact Or.inl rfl

/-- A value that is null, a string, or an object without a callable
handle member fails the validation of line 14. -/
theorem isInvalidApp_of_bad (a : JSValue)
    (h : a = JSValue.vNull ∨ (∃ s, a = JSValue.vStr s) ∨
         (∃ hp, a = JSValue.vObj hp ∧ typeofIsFunction (getHandle (JSValue.vObj hp)) = false)) :
    isInvalidApp a = true := by
  rcases h with h | ⟨s, h⟩ | ⟨hp, h, hf⟩
  · subst h
    rfl
  · subst h
    simp [isInvalidApp, truthy, typeofIsFunction, getHandle]
  · subst h
    simp only [getHandle] at hf
    simp [isInvalidApp, truthy, typeofIsFunction, getHandle] at hf ⊢
    exact hf

/-- A module whose default export is a bare function with no handle
member, used as a concrete valid input. -/
def fnModule : ModuleImport :=
  { defaultExport := JSValue.vFun JSValue.vUndefined, nsHandle := JSValue.vUndefined }

/-- A module whose default export is a string, used as a concrete
invalid input. -/
def strModule : ModuleImport :=
  { defaultExport := JSValue.vStr "not an app", nsHandle := JSValue.vUndefined }

/-- A module with a null default export and a callable handle export on
its namespace object. -/
def nsHandleModule : ModuleImport :=
  { defaultExport := JSValue.vNull, nsHandle := JSValue.vFun JSValue.vUndefined }

/-- An invocation that throws synchronously. -/
def throwingBehavior : AppBehavior :=
  { throwsSync := true, firstEvent := none }

/-- An invocation that completes and signals finish. -/
def finishBehavior : AppBehavior :=
  { throwsSync := false, firstEvent := some RespEvent.finish }

/-!
## Claim theorems
-/

/-- Claim C1: for every dynamically loaded module whose resolved
application value is null, a string, or an object lacking an invocable
member (neither a bare function nor a value with a callable handle
member), handle(req, res) responds HTTP 500 with the fixed
configuration-error JSON body and returns without invoking the
application, and the validation failure is never raised as an exception
(the returned promise resolves normally). -/
theorem c1_shape_validation (m : ModuleImport) (b : AppBehavior)
    (h : resolvedApp m = JSValue.vNull ∨ (∃ s, resolvedApp m = JSValue.vStr s) ∨
         (∃ hp, resolvedApp m = JSValue.vObj hp ∧
            typeofIsFunction (getHandle (JSValue.vObj hp)) = false)) :
    handler (LoadResult.ok m) b =
      { adapterStatus := some 500, adapterBody := some configurationErrorBody,
        invoked := none, settle := Settle.resolved } :=
  handlerWithApp_invalid _ _ (isInvalidApp_of_bad _ h)

/-- Witness for C1 at a module whose default export is a string. -/
theorem c1_shape_validation_witness :
    handler (LoadResult.ok strModule) finishBehavior =
      { adapterStatus := some 500, adapterBody := some configurationErrorBody,
        invoked := none, settle := Settle.resolved } :=
  c1_shape_validation strModule finishBehavior (Or.inr (Or.inl ⟨"not an app", by decide⟩))

/-- Claim C2, counterexample: the claim says every exception thrown
synchronously or asynchronously during module loading, validation or
application invocation is caught at the top level and converted into an
HTTP 500 JSON response, so that no rejection escapes to the host. At a
valid bare-function application whose invocation throws synchronously,
the adapter writes no 500 body and the returned promise is rejected:
the Promise constructor turns the throw into a rejection of the promise
the async function returns without awaiting, which bypasses the catch of
line 33 and escapes to the host runtime. -/
theorem c2_counterexample :
    (handler (LoadResult.ok fnModule) throwingBehavior).adapterBody = none ∧
    (handler (LoadResult.ok fnModule) throwingBehavior).settle = Settle.rejected := by
  decide

/-- Claim C2 as amended: an exception thrown by the dynamic
module-import step is caught at the top level, converted into the generic 500
JSON body, the returned promise resolving normally; but an exception
thrown synchronously by the application during its invocation is not
caught: the adapter writes no response of its own and the returned
promise is rejected, propagating to the host runtime. -/
theorem c2_amended_error_handling :
    (∀ b : AppBehavior,
      handler LoadResult.throws b =
        { adapterStatus := some 500, adapterBody := some internalErrorBody,
          invoked := none, settle := Settle.resolved }) ∧
    (∀ (m : ModuleImport) (b : AppBehavior),
      isInvalidApp (resolvedApp m) = false → b.throwsSync = true →
        (handler (LoadResult.ok m) b).adapterBody = none ∧
        (handler (LoadResult.ok m) b).settle = Settle.rejected) := by
  constructor
  · intro b
    rfl
  · intro m b hv ht
    show (handlerWithApp (resolvedApp m) b).adapterBody = none ∧
      (handlerWithApp (resolvedApp m) b).settle = Settle.rejected
    rw [handlerWithApp_valid _ _ hv]
    simp [ht]

/-- Witness for C2 as amended, at a valid bare-function application
whose invocation throws synchronously. -/
theorem c2_amended_error_handling_witness :
    (handler (LoadResult.ok fnModule) throwingBehavior).adapterBody = none ∧
    (handler (LoadResult.ok fnModule) throwingBehavior).settle = Settle.rejected :=
  c2_amended_error_handling.2 fnModule throwingBehavior (by decide) rfl

/-- Claim C3: for every invocation where the loaded application passes
shape validation and is invoked without throwing synchronously, a finish
or close event resolves the returned promise and an error event signaled
without a prior finish rejects it. -/
theorem c3_completion (m : ModuleImport) (b : AppBehavior)
    (hv : isInvalidApp (resolvedApp m) = false) (hs : b.throwsSync = false) :
    ((b.firstEvent = some RespEvent.finish ∨ b.firstEvent = some RespEvent.close) →
      (handler (LoadResult.ok m) b).settle = Settle.resolved) ∧
    (b.firstEvent = some RespEvent.error →
      (handler (LoadResult.ok m) b).settle = Settle.rejected) := by
  have hval : handler (LoadResult.ok m) b = handlerWithApp (resolvedApp m) b := rfl
  rw [hval, handlerWithApp_valid _ _ hv]
  constructor
  · rintro (he | he) <;> simp [hs, he]
  · intro he
    simp [hs, he]

/-- Witness for C3 at a bare-function application signaling finish. -/
theorem c3_completion_witness :
    (handler (LoadResult.ok fnModule) finishBehavior).settle = Settle.resolved :=
  (c3_completion fnModule finishBehavior (by decide) rfl).1 (Or.inl rfl)

/-- Claim C9: every resolved application value passing validation that
is a bare function is invoked directly, even when it also exposes a
handle member; the handle-member form is used exactly when the value is
a non-function object whose handle member is callable. -/
theorem c9_direct_invocation (app : JSValue) (b : AppBehavior)
    (hv : isInvalidApp app = false) :
    (typeofIsFunction app = true → (handlerWithApp app b).invoked = some InvokeForm.direct) ∧
    (typeofIsFunction app = false →
      (handlerWithApp app b).invoked = some InvokeForm.viaHandle ∧
      typeofIsFunction (getHandle app) = true ∧ ∃ hp, app = JSValue.vObj hp) := by
  rw [handlerWithApp_valid _ _ hv]
  constructor
  · intro hf
    simp [hf]
  · intro hf
    refine ⟨by simp [hf], ?_, ?_⟩
    · rcases valid_cases app hv with ⟨-, hc | hc⟩
      · rw [hf] at hc
        exact absurd hc (by simp)
      · exact hc
    · rcases valid_cases app hv with ⟨ht, hc | hc⟩
      · rw [hf] at hc
        exact absurd hc (by simp)
      · cases app with
        | vNull => simp [truthy] at ht
        | vUndefined => simp [truthy] at ht
        | vStr s => simp [getHandle, typeofIsFunction] at hc
        | vFun hp => simp [typeofIsFunction] at hf
        | vObj hp => exact ⟨hp, rfl⟩

/-- Witness for C9 at a bare function that also exposes a callable
handle member: invoked directly, not through the handle member. -/
theorem c9_direct_invocation_witness :
    (handlerWithApp (JSValue.vFun (JSValue.vFun JSValue.vUndefined)) finishBehavior).invoked =
      some InvokeForm.direct :=
  (c9_direct_invocation (JSValue.vFun (JSValue.vFun JSValue.vUndefined)) finishBehavior
    (by decide)).1 rfl

/-- Claim C10: for every module whose default export is falsy, the
adapter substitutes the module namespace object itself as the candidate
application and validates it; such a module is rejected with the
configuration-error body exactly when the namespace object (never
callable) has no callable handle member. -/
theorem c10_namespace_fallback (m : ModuleImport) (b : AppBehavior)
    (h : truthy m.defaultExport = false) :
    resolvedApp m = moduleNamespace m ∧
    ((handler (LoadResult.ok m) b).adapterBody = some configurationErrorBody ↔
      typeofIsFunction (getHandle (moduleNamespace m)) = false) := by
  have hres : resolvedApp m = moduleNamespace m := by
    simp [resolvedApp, h]
  refine ⟨hres, ?_⟩
  have hnorm : handler (LoadResult.ok m) b = handlerWithApp (moduleNamespace m) b := by
    show handlerWithApp (resolvedApp m) b = handlerWithApp (moduleNamespace m) b
    rw [hres]
  rw [hnorm]
  have hinv : isInvalidApp (moduleNamespace m) =
      !typeofIsFunction (getHandle (moduleNamespace m)) := by
    simp [isInvalidApp, moduleNamespace, truthy, typeofIsFunction]
  constructor
  · intro hbody
    rcases hf : typeofIsFunction (getHandle (moduleNamespace m)) with _ | _
    · rfl
    · rw [handlerWithApp_valid _ _ (by rw [hinv, hf]; rfl)] at hbody
      exact absurd hbody (by simp)
  · intro hf
    rw [handlerWithApp_invalid _ _ (by rw [hinv, hf]; rfl)]

/-- Witness for C10 at a module with a null default export whose
namespace object has a callable handle export: the namespace object is
substituted and accepted, so no configuration error is produced. -/
theorem c10_namespace_fallback_witness :
    resolvedApp nsHandleModule = moduleNamespace nsHandleModule :=
  (c10_namespace_fallback nsHandleModule finishBehavior rfl).1

/-- The catch block always ends with the null, disconnected state. -/
theorem initCatch_final (s : DBState) :
    (initCatch s).final = { prisma := none, dbConnected := false } := by
  unfold initCatch
  cases s.prisma <;> rfl

/-- The final state of every run of initializeDatabase satisfies the
connectivity invariant: it is either the null, disconnected state or the
connected state holding a client. -/
theorem initializeDatabase_final_invariant (env : DBEnv) (s0 : DBState) :
    dbInvariant (initializeDatabase env s0).final = true := by
  unfold initializeDatabase
  split_ifs <;> simp [dbInvariant, initCatch_final]

/-- An environment with a configured database whose schema-validation
count fails, used as a concrete failing input. -/
def failingEnv : DBEnv :=
  { databaseUrl := some "postgresql://db", ctorFails := false, connectFails := false,
    countFails := true, disconnectFails := false }

/-- The initial connectivity state of source lines 58-59. -/
def initialState : DBState :=
  { prisma := none, dbConnected := false }

/-- A request context seen without a database. -/
def initialRequestContext : RequestContext :=
  { prisma := none, dbConnected := false }

/-- A request context seen with a connected database. -/
def connectedRequestContext : RequestContext :=
  { prisma := some PrismaClient.client, dbConnected := true }

/-- Claim C4: whenever the database connection string is absent or the
connection attempt or the schema-validation read fails,
initializeDatabase ends with connected false and a null handle, releases
a partially-established connection on the failure path, and a failure of
the release itself never changes the outcome (it is absorbed by the
inner catch, so nothing escapes the boundary; the model is total, every
environment yields a normal result). -/
theorem c4_fallback_normalization (env : DBEnv) (s0 : DBState)
    (h : envTruthy env.databaseUrl = false ∨ env.ctorFails = true ∨
         env.connectFails = true ∨ env.countFails = true) :
    (initializeDatabase env s0).final = { prisma := none, dbConnected := false } ∧
    (envTruthy env.databaseUrl = true → env.ctorFails = false →
      (initializeDatabase env s0).disconnectCalled = true →
      (initializeDatabase env s0).final = { prisma := none, dbConnected := false }) ∧
    (envTruthy env.databaseUrl = true → env.ctorFails = false →
      (env.connectFails = true ∨ env.countFails = true) →
      (initializeDatabase env s0).disconnectCalled = true) ∧
    initializeDatabase { env with disconnectFails := true } s0 =
      initializeDatabase { env with disconnectFails := false } s0 := by
  refine ⟨?_, ?_, ?_, ?_⟩
  · unfold initializeDatabase
    split_ifs <;> simp_all [initCatch_final]
  · intro _ _ _
    unfold initializeDatabase
    split_ifs <;> simp_all [initCatch_final]
  · intro hurl hctor hfail
    unfold initializeDatabase initCatch
    rcases hfail with hf | hf <;> split_ifs <;> simp_all
  · rfl

/-- Witness for C4 at the concrete failing environment. -/
theorem c4_fallback_normalization_witness :
    (initializeDatabase failingEnv initialState).final =
      { prisma := none, dbConnected := false } ∧
    (initializeDatabase failingEnv initialState).disconnectCalled = true :=
  ⟨(c4_fallback_normalization failingEnv initialState (by decide)).1,
   (c4_fallback_normalization failingEnv initialState (by decide)).2.2.1 (by decide) rfl
     (Or.inr rfl)⟩

/-- Claim C5, counterexample: the claim says the handle is non-null only
if the connected flag is true at every point, including every
intermediate point of initializeDatabase a concurrently processed
request could read. In the concrete failing environment the run of
initializeDatabase passes through a suspension point (awaiting the
connect call, line 66, after the assignment of line 65) whose state
holds a client while dbConnected is still false, falsifying the
invariant there. -/
theorem c5_counterexample :
    dbInvariant { prisma := some PrismaClient.client, dbConnected := false } = false ∧
    { prisma := some PrismaClient.client, dbConnected := false } ∈
      (initializeDatabase failingEnv initialState).trace := by
  decide

/-- Claim C5 as amended: the connectivity invariant (handle non-null
only if connected) holds at the final state of every run of
initializeDatabase and at the state the startup selector leaves in
either branch; it does not hold at the intermediate suspension points of
initializeDatabase, where the handle is already assigned while the
connected flag is still false, and the two variables are assigned by
separate statements. -/
theorem c5_amended_invariant (env : DBEnv) (s0 : DBState) (v : Option String) :
    dbInvariant (initializeDatabase env s0).final = true ∧
    dbInvariant (startupInit v env).state = true := by
  refine ⟨initializeDatabase_final_invariant env s0, ?_⟩
  unfold startupInit
  split_ifs
  · rfl
  · exact initializeDatabase_final_invariant env initialState

/-- Claim C6: while the hosted-execution indicator VERCEL is truthy at
startup, the startup selector never invokes initializeDatabase, leaves
the null, disconnected state, and the context-injection middleware hands
every request connected = false with a null handle. -/
theorem c6_hosted_mode (v : Option String) (env : DBEnv)
    (h : envTruthy v = true) :
    (startupInit v env).initInvoked = false ∧
    (startupInit v env).state = { prisma := none, dbConnected := false } ∧
    contextInjection (startupInit v env).state =
      { prisma := none, dbConnected := false } := by
  unfold startupInit
  simp [h, contextInjection]

/-- Witness for C6 with VERCEL set to 1 over the failing environment. -/
theorem c6_hosted_mode_witness :
    (startupInit (some "1") failingEnv).initInvoked = false ∧
    (startupInit (some "1") failingEnv).state = { prisma := none, dbConnected := false } ∧
    contextInjection (startupInit (some "1") failingEnv).state =
      { prisma := none, dbConnected := false } :=
  c6_hosted_mode (some "1") failingEnv (by decide)

/-- Claim C7: the limiter is configured with a 60-second window and a
ceiling of 200 requests per identity, exempts successful (2xx)
responses from counting, never counts the health-check path regardless
of the standing count, and rejects an over-limit request with the
structured body carrying a retry-after hint of 60 seconds. The
fixed-window counting discipline of the external middleware is modelled
from the spec in limiterStep. -/
theorem c7_rate_limiter (count : Nat) (path : String) (status : Nat)
    (hp : path ≠ "/api/health") :
    limiter.windowMs = 60 * 1000 ∧
    limiter.max = 200 ∧
    limiter.skipSuccessfulRequests = true ∧
    limiter.message = { error := "Too many requests, please try again later.", retryAfter := 60 } ∧
    (∀ c s, limiterStep limiter c "/api/health" s =
      { allowed := true, newCount := c, rejectBody := none }) ∧
    (200 < count + 1 →
      limiterStep limiter count path status =
        { allowed := false, newCount := count + 1, rejectBody := some limiter.message }) ∧
    (count + 1 ≤ 200 → 200 ≤ status → status < 300 →
      limiterStep limiter count path status =
        { allowed := true, newCount := count, rejectBody := none }) := by
  refine ⟨rfl, rfl, rfl, rfl, ?_, ?_, ?_⟩
  · intro c s
    simp [limiterStep, limiter]
  · intro hover
    simp [limiterStep, limiter, hp, hover]
  · intro hunder hlow hhigh
    simp [limiterStep, limiter, hp, hlow, hhigh]
    omega

/-- Witness for C7: the 201st counted hit from one identity on a
non-exempt path is rejected with the documented body. -/
theorem c7_rate_limiter_witness :
    limiterStep limiter 200 "/api/users" 404 =
      { allowed := false, newCount := 201, rejectBody := some limiter.message } :=
  (c7_rate_limiter 200 "/api/users" 404 (by decide)).2.2.2.2.2.1 (by omega)

/-- Claim C8: the health route always answers 200 with body status OK
and the current clock reading as timestamp, reads nothing from the
request context (in particular not the database handle), and over any
monotone clock the timestamps of successive calls are monotonically
non-decreasing. -/
theorem c8_health_endpoint (ctx ctx2 : RequestContext) (clock : Nat → Nat)
    (hm : Monotone clock) (i j : Nat) (hij : i ≤ j) :
    (healthHandler ctx (clock i)).httpStatus = 200 ∧
    (healthHandler ctx (clock i)).body.status = "OK" ∧
    (healthHandler ctx (clock i)).body.timestamp = clock i ∧
    healthHandler ctx (clock i) = healthHandler ctx2 (clock i) ∧
    (healthHandler ctx (clock i)).body.timestamp ≤
      (healthHandler ctx (clock j)).body.timestamp :=
  ⟨rfl, rfl, rfl, rfl, hm hij⟩

/-- Witness for C8 at the identity clock, instants 3 and 5, and two
different request contexts. -/
theorem c8_health_endpoint_witness :
    (healthHandler initialRequestContext (id 3)).httpStatus = 200 ∧
    (healthHandler initialRequestContext (id 3)).body.status = "OK" ∧
    (healthHandler initialRequestContext (id 3)).body.timestamp = id 3 ∧
    healthHandler initialRequestContext (id 3) = healthHandler connectedRequestContext (id 3) ∧
    (healthHandler initialRequestContext (id 3)).body.timestamp ≤
      (healthHandler initialRequestContext (id 5)).body.timestamp :=
  c8_health_endpoint initialRequestContext connectedRequestContext id monotone_id 3 5
    (by decide)

end AtomBackend
